import Mathlib

/-!
Verification of the chat artifact pipeline (backend/app/services).

This file gives a shallow embedding of the pipeline stages found in the
repository sources and proves properties of the embedded definitions:

* `app/utils/json_handler.py`           — `JSONHandler.extract_clean_json`
* `app/services/agents/workflow_decider.py` — `WorkflowDecider.decide_workflow`
* `app/services/agents/parent_agent.py` — `QuickResponder.respond`,
  `ArtifactConstructor.construct_artifact`, `ArtifactSummaryProvider.provide_summary`,
  `ParentAgent.process` (with its table/card constructors and fallbacks)
* `app/services/agents/response_structurer.py` — `ResponseStructurer.structure_response`

Modelling conventions:
* Python dicts/JSON values are the inductive type `Json` below; dict keys keep
  their insertion order (an association list), and lookup takes the first
  binding, which coincides with Python dict semantics because insertion
  updates in place (`objInsert`).
* `json.loads` is modelled by `json_loads`, a recursive-descent parser for the
  JSON fragment the pipeline exchanges; numbers are modelled as integers.
* The completion client (`GPTService.get_chat_response`) is an external
  collaborator.  It is modelled by a script of outcomes (`GptState.script`):
  each call consumes the next outcome and records the prompt it sent in
  `GptState.sent`.  An exhausted script behaves like a completion-service
  failure.  A Python `raise` is an `Except.error`; `try/except` is a `match`.
* Python f-string prompt literals are reproduced with their interpolation
  structure intact; indentation whitespace inside the fixed literal parts is
  abbreviated and ASCII-normalized, which no theorem below depends on.
-/

namespace ChatPipeline

/-- JSON values / Python dicts as exchanged by the pipeline.  Numbers are
modelled as integers (the pipeline's payloads use integral demo values). -/
inductive Json where
  | null : Json
  | bool : Bool → Json
  | num : Int → Json
  | str : String → Json
  | arr : List Json → Json
  | obj : List (String × Json) → Json
deriving Repr, Inhabited

mutual

/-- Decidable equality for `Json` (the derive handler does not support the
nested `List` occurrences). -/
def Json.decEq : (a b : Json) → Decidable (a = b)
  | .null, .null => isTrue rfl
  | .bool a, .bool b =>
      if h : a = b then isTrue (h ▸ rfl)
      else isFalse (fun hab => h (Json.bool.inj hab))
  | .num a, .num b =>
      if h : a = b then isTrue (h ▸ rfl)
      else isFalse (fun hab => h (Json.num.inj hab))
  | .str a, .str b =>
      if h : a = b then isTrue (h ▸ rfl)
      else isFalse (fun hab => h (Json.str.inj hab))
  | .arr a, .arr b =>
      match Json.decEqList a b with
      | isTrue h => isTrue (h ▸ rfl)
      | isFalse h => isFalse (fun hab => h (Json.arr.inj hab))
  | .obj a, .obj b =>
      match Json.decEqFields a b with
      | isTrue h => isTrue (h ▸ rfl)
      | isFalse h => isFalse (fun hab => h (Json.obj.inj hab))
  | .null, .bool _ => isFalse (fun h => nomatch h)
  | .null, .num _ => isFalse (fun h => nomatch h)
  | .null, .str _ => isFalse (fun h => nomatch h)
  | .null, .arr _ => isFalse (fun h => nomatch h)
  | .null, .obj _ => isFalse (fun h => nomatch h)
  | .bool _, .null => isFalse (fun h => nomatch h)
  | .bool _, .num _ => isFalse (fun h => nomatch h)
  | .bool _, .str _ => isFalse (fun h => nomatch h)
  | .bool _, .arr _ => isFalse (fun h => nomatch h)
  | .bool _, .obj _ => isFalse (fun h => nomatch h)
  | .num _, .null => isFalse (fun h => nomatch h)
  | .num _, .bool _ => isFalse (fun h => nomatch h)
  | .num _, .str _ => isFalse (fun h => nomatch h)
  | .num _, .arr _ => isFalse (fun h => nomatch h)
  | .num _, .obj _ => isFalse (fun h => nomatch h)
  | .str _, .null => isFalse (fun h => nomatch h)
  | .str _, .bool _ => isFalse (fun h => nomatch h)
  | .str _, .num _ => isFalse (fun h => nomatch h)
  | .str _, .arr _ => isFalse (fun h => nomatch h)
  | .str _, .obj _ => isFalse (fun h => nomatch h)
  | .arr _, .null => isFalse (fun h => nomatch h)
  | .arr _, .bool _ => isFalse (fun h => nomatch h)
  | .arr _, .num _ => isFalse (fun h => nomatch h)
  | .arr _, .str _ => isFalse (fun h => nomatch h)
  | .arr _, .obj _ => isFalse (fun h => nomatch h)
  | .obj _, .null => isFalse (fun h => nomatch h)
  | .obj _, .bool _ => isFalse (fun h => nomatch h)
  | .obj _, .num _ => isFalse (fun h => nomatch h)
  | .obj _, .str _ => isFalse (fun h => nomatch h)
  | .obj _, .arr _ => isFalse (fun h => nomatch h)

/-- Decidable equality for lists of `Json`. -/
def Json.decEqList : (a b : List Json) → Decidable (a = b)
  | [], [] => isTrue rfl
  | _ :: _, [] => isFalse (fun h => nomatch h)
  | [], _ :: _ => isFalse (fun h => nomatch h)
  | a :: as, b :: bs =>
      match Json.decEq a b with
      | isFalse h => isFalse (fun hab => h (List.cons.inj hab).1)
      | isTrue h₁ =>
          match Json.decEqList as bs with
          | isTrue h₂ => isTrue (h₁ ▸ h₂ ▸ rfl)
          | isFalse h₂ => isFalse (fun hab => h₂ (List.cons.inj hab).2)

/-- Decidable equality for `Json` object fields. -/
def Json.decEqFields : (a b : List (String × Json)) → Decidable (a = b)
  | [], [] => isTrue rfl
  | _ :: _, [] => isFalse (fun h => nomatch h)
  | [], _ :: _ => isFalse (fun h => nomatch h)
  | (k₁, v₁) :: as, (k₂, v₂) :: bs =>
      if hk : k₁ = k₂ then
          match Json.decEq v₁ v₂ with
          | isFalse h => isFalse (fun hab => h (congrArg Prod.snd (List.cons.inj hab).1))
          | isTrue hv =>
              match Json.decEqFields as bs with
              | isTrue ht => isTrue (hk ▸ hv ▸ ht ▸ rfl)
              | isFalse h => isFalse (fun hab => h (List.cons.inj hab).2)
      else isFalse (fun hab => hk (congrArg Prod.fst (List.cons.inj hab).1))

end

instance : DecidableEq Json := Json.decEq

/-- First binding for a key in an association list (Python dict lookup). -/
def lookupKey (kvs : List (String × Json)) (k : String) : Option Json :=
  match kvs with
  | [] => none
  | (k₀, v₀) :: rest => if k₀ = k then some v₀ else lookupKey rest k

/-- Python `d.get(k, default)` on a dict. -/
def getKeyD (kvs : List (String × Json)) (k : String) (d : Json) : Json :=
  (lookupKey kvs k).getD d

/-- Python dict insertion: update an existing key in place, else append. -/
def objInsert (kvs : List (String × Json)) (k : String) (v : Json) :
    List (String × Json) :=
  match kvs with
  | [] => [(k, v)]
  | (k₀, v₀) :: rest =>
      if k₀ = k then (k₀, v) :: rest else (k₀, v₀) :: objInsert rest k v

/-- Python `base.update(new)` on dicts. -/
def objUpdate (base new : List (String × Json)) : List (String × Json) :=
  new.foldl (fun acc kv => objInsert acc kv.1 kv.2) base

/-- Python truthiness of a JSON value. -/
def Json.truthy : Json → Bool
  | .null => false
  | .bool b => b
  | .num n => n ≠ 0
  | .str s => !s.isEmpty
  | .arr xs => !xs.isEmpty
  | .obj kvs => !kvs.isEmpty

mutual

/-- Rendering of a value inside a Python f-string.  Strings render as
themselves; other values render via their (ASCII-normalized) textual form. -/
def Json.render : Json → String
  | .null => "None"
  | .bool true => "True"
  | .bool false => "False"
  | .num n => toString n
  | .str s => s
  | .arr xs => "[" ++ String.intercalate ", " (Json.renderList xs) ++ "]"
  | .obj kvs =>
      "\x7b" ++ String.intercalate ", " (Json.renderFields kvs) ++ "\x7d"

/-- Renders each element of a `Json` array. -/
def Json.renderList : List Json → List String
  | [] => []
  | x :: xs => x.render :: Json.renderList xs

/-- Renders each field of a `Json` object. -/
def Json.renderFields : List (String × Json) → List String
  | [] => []
  | (k, v) :: kvs => (k ++ ": " ++ v.render) :: Json.renderFields kvs

end

/-- Exceptions the embedded Python code can raise. -/
inductive PyErr where
  | gptFailure : String → PyErr
  | attributeError : PyErr
  | typeError : PyErr
  | keyError : PyErr
deriving Repr, DecidableEq

/-- Python `j.get(k)` (no default): `None` when the key is missing, an
`AttributeError` when the receiver is not a dict. -/
def pyGet (j : Json) (k : String) : Except PyErr Json :=
  match j with
  | .obj kvs => .ok ((lookupKey kvs k).getD .null)
  | _ => .error .attributeError

/-- Python `j[k]` indexing. -/
def pyIndex (j : Json) (k : String) : Except PyErr Json :=
  match j with
  | .obj kvs =>
      match lookupKey kvs k with
      | some v => .ok v
      | none => .error .keyError
  | _ => .error .typeError

/-- Contiguous-sublist test (Python `sub in s` on strings). -/
def charsInfix (pat : List Char) : List Char → Bool
  | [] => pat.isEmpty
  | c :: rest => pat.isPrefixOf (c :: rest) || charsInfix pat rest

/-- Python `k in j`: key test on dicts, substring test on strings,
membership on lists, `TypeError` otherwise. -/
def pyIn (j : Json) (k : String) : Except PyErr Bool :=
  match j with
  | .obj kvs => .ok (lookupKey kvs k).isSome
  | .str s => .ok (charsInfix k.toList s.toList)
  | .arr xs => .ok (xs.any (fun x => x == Json.str k))
  | _ => .error .typeError

instance : DecidableEq (Except PyErr String) := fun a b =>
  match a, b with
  | .ok x, .ok y =>
      if h : x = y then isTrue (h ▸ rfl)
      else isFalse (fun hab => h (Except.ok.inj hab))
  | .error x, .error y =>
      if h : x = y then isTrue (h ▸ rfl)
      else isFalse (fun hab => h (Except.error.inj hab))
  | .ok _, .error _ => isFalse (fun h => nomatch h)
  | .error _, .ok _ => isFalse (fun h => nomatch h)

/-- State of the external completion service: the remaining scripted
outcomes, and the trace of prompts sent so far. -/
structure GptState where
  script : List (Except PyErr String)
  sent : List String
deriving Repr, DecidableEq

/-- One call to `GPTService.get_chat_response`: records the prompt and
consumes the next scripted outcome; an exhausted script is a service
failure (the service raises). -/
def callGpt (prompt : String) (st : GptState) : Except PyErr String × GptState :=
  match st.script with
  | [] => (.error (.gptFailure "service unavailable"),
           { script := [], sent := st.sent ++ [prompt] })
  | r :: rest => (r, { script := rest, sent := st.sent ++ [prompt] })

/-! ## Python string primitives -/

/-- Python `str.find(ch)`: index of the first occurrence. -/
def pyFind (ch : Char) : List Char → Option Nat
  | [] => none
  | c :: cs => if c = ch then some 0 else (pyFind ch cs).map (· + 1)

/-- Python `str.rfind(ch)`: index of the last occurrence. -/
def pyRfind (ch : Char) : List Char → Option Nat
  | [] => none
  | c :: cs =>
      match pyRfind ch cs with
      | some j => some (j + 1)
      | none => if c = ch then some 0 else none

/-- Python `str.strip()` on a character list. -/
def pyStripL (s : List Char) : List Char :=
  ((s.dropWhile Char.isWhitespace).reverse.dropWhile Char.isWhitespace).reverse

/-- Python `str.strip()` on a string. -/
def pyStrip (s : String) : String := String.mk (pyStripL s.toList)

/-- One fuelled step list for Python `str.replace(pat, rep)` (all,
non-overlapping, left to right). -/
def pyReplaceAux : Nat → List Char → List Char → List Char → List Char
  | 0, s, _, _ => s
  | fuel + 1, s, pat, rep =>
      match s with
      | [] => []
      | c :: rest =>
          if pat ≠ [] ∧ pat.isPrefixOf s then
            rep ++ pyReplaceAux fuel (s.drop pat.length) pat rep
          else
            c :: pyReplaceAux fuel rest pat rep

/-- Python `str.replace(pat, rep)` for a non-empty pattern. -/
def pyReplace (s pat rep : String) : String :=
  String.mk (pyReplaceAux s.toList.length s.toList pat.toList rep.toList)

/-- Python `history[-5:]`: the last `n` elements. -/
def lastN (n : Nat) (l : List α) : List α := l.drop (l.length - n)

/-! ## `json.loads` (modelled parser) -/

/-- Body of a JSON string literal up to the closing quote; supports the
escapes the pipeline's payloads use. -/
def parseStringBody : List Char → Option (List Char × List Char)
  | [] => none
  | '\x22' :: rest => some ([], rest)
  | '\\' :: c :: rest =>
      match
        (if c = '\x22' then some '\x22'
         else if c = '\\' then some '\\'
         else if c = '/' then some '/'
         else if c = 'n' then some '\n'
         else if c = 't' then some '\t'
         else if c = 'r' then some '\r'
         else none) with
      | some e => (parseStringBody rest).map (fun p => (e :: p.1, p.2))
      | none => none
  | '\\' :: [] => none
  | c :: rest => (parseStringBody rest).map (fun p => (c :: p.1, p.2))

/-- Skip JSON whitespace. -/
def skipWs : List Char → List Char
  | [] => []
  | c :: cs => if c = ' ' ∨ c = '\n' ∨ c = '\t' ∨ c = '\r' then skipWs cs else c :: cs

/-- Parse a run of decimal digits. -/
def parseDigits (cs : List Char) : Option (Nat × List Char) :=
  let ds := cs.takeWhile Char.isDigit
  if ds.isEmpty then none
  else some (ds.foldl (fun a c => a * 10 + (c.toNat - 48)) 0, cs.dropWhile Char.isDigit)

mutual

/-- Parse one JSON value (integral numbers only). -/
def parseVal : Nat → List Char → Option (Json × List Char)
  | 0, _ => none
  | fuel + 1, cs =>
      match skipWs cs with
      | 'n' :: 'u' :: 'l' :: 'l' :: r => some (.null, r)
      | 't' :: 'r' :: 'u' :: 'e' :: r => some (.bool true, r)
      | 'f' :: 'a' :: 'l' :: 's' :: 'e' :: r => some (.bool false, r)
      | '\x22' :: r =>
          (parseStringBody r).map (fun p => (.str (String.mk p.1), p.2))
      | '[' :: r =>
          (match skipWs r with
           | ']' :: r₂ => some (.arr [], r₂)
           | r₂ => (parseElems fuel r₂).map (fun p => (.arr p.1, p.2)))
      | '\x7b' :: r =>
          (match skipWs r with
           | '\x7d' :: r₂ => some (.obj [], r₂)
           | r₂ => (parseFields fuel r₂).map (fun p => (.obj (objUpdate [] p.1), p.2)))
      | '-' :: r =>
          (parseDigits r).map (fun p => (.num (-(p.1 : Int)), p.2))
      | r =>
          match parseDigits r with
          | some p => some (.num (p.1 : Int), p.2)
          | none => none

/-- Parse the comma-separated elements of a non-empty array. -/
def parseElems : Nat → List Char → Option (List Json × List Char)
  | 0, _ => none
  | fuel + 1, cs => do
      let (v, r) ← parseVal fuel cs
      match skipWs r with
      | ',' :: r₂ => (parseElems fuel r₂).map (fun p => (v :: p.1, p.2))
      | ']' :: r₂ => some ([v], r₂)
      | _ => none

/-- Parse the comma-separated fields of a non-empty object, in source order
(duplicates are resolved by the caller via `objUpdate`, which models Python
dict insertion). -/
def parseFields : Nat → List Char → Option (List (String × Json) × List Char)
  | 0, _ => none
  | fuel + 1, cs =>
      match skipWs cs with
      | '\x22' :: r => do
          let (key, r₂) ← parseStringBody r
          match skipWs r₂ with
          | ':' :: r₃ => do
              let (v, r₄) ← parseVal fuel r₃
              match skipWs r₄ with
              | ',' :: r₅ =>
                  (parseFields fuel r₅).map
                    (fun p => ((String.mk key, v) :: p.1, p.2))
              | '\x7d' :: r₅ => some ([(String.mk key, v)], r₅)
              | _ => none
          | _ => none
      | _ => none

end

/-- `json.loads`: parse a complete JSON document, rejecting trailing data. -/
def json_loads (s : String) : Option Json :=
  match parseVal (s.toList.length + 1) s.toList with
  | some (v, rest) => if (skipWs rest).isEmpty then some v else none
  | none => none

/-! ## `JSONHandler.extract_clean_json` (app/utils/json_handler.py) -/

/-- The cleaning pass of `extract_clean_json`: drop markdown code fences,
then strip surrounding whitespace. -/
def cleanFences (response : String) : String :=
  pyStrip (pyReplace (pyReplace response "```json" "") "```" "")

/-- `JSONHandler.extract_clean_json`: clean the completion text, slice from
the first `{` to the last `}`, parse that slice as JSON; every failure path
returns the empty object instead of raising. -/
def extract_clean_json (response : String) : Json :=
  let cleaned := (cleanFences response).toList
  match pyFind '\x7b' cleaned, pyRfind '\x7d' cleaned with
  | some startIdx, some lastIdx =>
      let json_str := String.mk ((cleaned.drop startIdx).take (lastIdx + 1 - startIdx))
      match json_loads json_str with
      | some parsed => parsed
      | none => Json.obj []
  | _, _ => Json.obj []

/-! ## Conversation history -/

/-- One conversation message (a Python dict whose `role`/`content` keys may
be absent, read through `msg.get`). -/
structure Msg where
  role : Option String
  content : Option String
deriving Repr, DecidableEq

/-- `f"{msg.get('role', 'unknown')}: {msg.get('content', '')}"` -/
def Msg.fmt (m : Msg) : String :=
  m.role.getD "unknown" ++ ": " ++ m.content.getD ""

/-- The `"\n".join(...)` of the last five formatted messages. -/
def joinLast5 (history : List Msg) : String :=
  String.intercalate "\n" ((lastN 5 history).map Msg.fmt)

/-- `_format_conversation_history` (identical in `ArtifactConstructor` and
`ParentAgent`): the last five messages joined, or a placeholder. -/
def format_conversation_history (history : List Msg) : String :=
  if history.isEmpty then "No prior conversation" else joinLast5 history

/-- The `self._format_conversation_history(h) if h else "No prior context"`
pattern used by `ParentAgent.process` for its own prompts. -/
def history_context (history : List Msg) : String :=
  if history.isEmpty then "No prior context" else format_conversation_history history

/-- `QuickResponder.respond`'s inline context: the joined last five messages
when the history is non-empty, else the empty string. -/
def quick_context (history : List Msg) : String :=
  if history.isEmpty then "" else joinLast5 history

/-! ## Prompt builders (f-strings; fixed literal text abbreviated) -/

/-- The quick-response prompt (`parent_agent.py` lines 28–37). -/
def quick_response_prompt (context : String) (prompt : String) : String :=
  "Consider the following conversation context and respond to the prompt:\n\nCONVERSATION CONTEXT:\n"
    ++ (if context.isEmpty then "No prior conversation" else context)
    ++ "\n\nCURRENT PROMPT: \x22" ++ prompt
    ++ "\x22\n\nProvide a contextually appropriate response that maintains the conversation flow."

/-- `ArtifactConstructor.construct_artifact`'s construction prompt
(lines 79–109). -/
def artifact_prompt (chart_type component_type : Json) (prompt context_summary : String) : String :=
  "Generate metadata for a " ++ chart_type.render ++ " " ++ component_type.render
    ++ " considering the following context:\n\nQUERY: \x22" ++ prompt
    ++ "\x22\nCONVERSATION CONTEXT:\n" ++ context_summary
    ++ "\n\nGenerate complete and contextually relevant JSON metadata for the "
    ++ chart_type.render ++ " " ++ component_type.render
    ++ ", including title, style, labels, data and additional metadata, in JSON format."

/-- `ArtifactSummaryProvider.provide_summary`'s prompt (lines 256–272). -/
def summary_prompt (context_summary : String) (component_type chart_type artifact_data : Json) :
    String :=
  "Consider the following conversation context and artifact data:\n\nCONVERSATION CONTEXT:\n"
    ++ (if context_summary.isEmpty then "No prior conversation" else context_summary)
    ++ "\n\nARTIFACT TYPE: " ++ component_type.render ++ " ("
    ++ (if chart_type.truthy then chart_type.render else "N/A")
    ++ ")\nARTIFACT DATA: " ++ artifact_data.render
    ++ "\n\nGenerate a comprehensive summary paragraph relating the artifact to the conversation context."

/-- `ParentAgent.process`'s introductory-content prompt (lines 312–330). -/
def intro_prompt (prompt : String) (analysis : Json) (history : List Msg) : String :=
  "Create a natural introductory response for the following request:\n\nUSER QUERY: "
    ++ prompt ++ "\nANALYSIS: " ++ analysis.render
    ++ "\nCONTEXT: " ++ history_context history
    ++ "\n\nWrite a brief, engaging response that acknowledges the request and mentions the upcoming visualization."

/-- `ParentAgent.process`'s component-decision prompt (lines 339–362). -/
def component_decision_prompt (analysis reasoning : Json) (prompt : String)
    (history : List Msg) : String :=
  "Based on the following analysis and context, determine the most appropriate visualization format:\n\nANALYSIS: "
    ++ analysis.render ++ "\nREASONING: " ++ reasoning.render
    ++ "\nQUERY: " ++ prompt ++ "\nCONVERSATION CONTEXT: " ++ history_context history
    ++ "\n\nRespond in JSON format with component_type (Chart, Table or Card), chart_type (line, pie, bar, radar or area, only for Chart) and reasoning."

/-- `ParentAgent.construct_table_artifact`'s prompt (lines 445–461). -/
def table_prompt (prompt : String) (analysis : Json) (context_summary : String) : String :=
  "Generate a structured table dataset for the following query and context:\n\nQUERY: \x22"
    ++ prompt ++ "\x22\nANALYSIS: \x22" ++ analysis.render
    ++ "\x22\nCONVERSATION CONTEXT: " ++ context_summary
    ++ "\n\nProvide complete table data in JSON format with title, headers and rows."

/-- `ParentAgent.construct_card_artifact`'s prompt (lines 528–551). -/
def card_prompt (prompt : String) (analysis : Json) (context_summary : String) : String :=
  "Generate a metric card dataset based on the following query and context:\n\nQUERY: \x22"
    ++ prompt ++ "\x22\nANALYSIS: \x22" ++ analysis.render
    ++ "\x22\nCONVERSATION CONTEXT: " ++ context_summary
    ++ "\n\nProvide the card data in JSON format with title, metrics, summary and footer."

/-- `WorkflowDecider.decide_workflow`'s decision prompt (lines 27–57). -/
def workflow_decision_prompt (metadata : Json) : String :=
  "Analyze the following metadata to determine if the request requires an artifact response.\n\nMETADATA: "
    ++ metadata.render
    ++ "\n\nRespond in JSON format with selected_agent, requires_artifact and reasoning."

/-- `ResponseStructurer.structure_response`'s content-generation prompt
(lines 33–38). -/
def content_prompt (original_prompt : String) (component_type : Json) : String :=
  "Generate a brief introductory message for showing visualization of data.\nContext: User asked about "
    ++ original_prompt ++ "\nComponent: " ++ component_type.render
    ++ "\nMake it sound natural and helpful (1-2 sentences)."

/-! ## Agents (app/services/agents/parent_agent.py) -/

/-- The response dict the parent agent and its sub-agents pass around:
`content`, `has_artifact`, `data`, `component_type`, `summary`.  `Option`
models both an absent key and an explicit `None` for the string-valued keys
(the consumers read them through `.get`, which does not distinguish the
two); `Json.null` models `None` for the `Json`-valued keys, which are always
present. -/
structure AgentResponse where
  has_artifact : Bool
  content : Option String
  component_type : Json
  data : Json
  summary : Option String
deriving Repr, DecidableEq

/-- `QuickResponder.respond`: one completion call, no retry; the stripped
completion text becomes `content` with `has_artifact=False`; a completion
failure propagates (there is no `try` in the source). -/
def quickRespond (prompt : String) (history : List Msg) (st : GptState) :
    Except PyErr AgentResponse × GptState :=
  let context := quick_context history
  match callGpt (quick_response_prompt context prompt) st with
  | (.error e, st') => (.error e, st')
  | (.ok resp, st') =>
      (.ok { has_artifact := false, content := some (pyStrip resp),
             component_type := .null, data := .null, summary := none }, st')

/-- The default style dict `{"width": "800px", "height": "500px"}`. -/
def defaultStyle : Json :=
  .obj [("width", .str "800px"), ("height", .str "500px")]

/-- `ArtifactConstructor._generate_fallback_artifact` (lines 165–188):
always `has_artifact=True` with placeholder data. -/
def fallback_artifact (component_type chart_type : Json) : AgentResponse :=
  { has_artifact := true, content := none, component_type := component_type,
    data := .obj
      [("type", chart_type),
       ("title", .str ("Generated " ++ chart_type.render ++ " " ++ component_type.render)),
       ("style", defaultStyle),
       ("labels", .arr [.str "Category A", .str "Category B", .str "Category C"]),
       ("data", .obj
         [("values", .arr [.num 33, .num 33, .num 34]),
          ("metadata", .obj
            [("description", .str "Fallback visualization"),
             ("insights", .arr [.str "Data unavailable", .str "Using placeholder values"]),
             ("source", .str "Simulated data (fallback)")])])],
    summary := none }

/-- The inner default for `artifact_data.get("data", {...})` in
`construct_artifact` (lines 133–140). -/
def constructDataDefault : Json :=
  .obj [("values", .arr [.num 25, .num 50, .num 25]),
        ("metadata", .obj
          [("description", .str "Fallback description"),
           ("insights", .arr [.str "No specific insights available"]),
           ("source", .str "Simulated data")])]

/-- `ArtifactConstructor.construct_artifact` (lines 56–146): one completion
call; the whole body sits in `try/except Exception`, so a completion failure,
a JSON parse failure, or a non-dict payload all yield the fallback artifact —
the call never fails and always reports `has_artifact=True`. -/
def construct_artifact (component_type chart_type : Json) (prompt : String)
    (history : List Msg) (st : GptState) : AgentResponse × GptState :=
  let context_summary := format_conversation_history history
  match callGpt (artifact_prompt chart_type component_type prompt context_summary) st with
  | (.error _, st') => (fallback_artifact component_type chart_type, st')
  | (.ok gpt_response, st') =>
      match json_loads gpt_response with
      | none => (fallback_artifact component_type chart_type, st')
      | some (.obj kvs) =>
          ({ has_artifact := true, content := none, component_type := component_type,
             data := .obj
               [("type", chart_type),
                ("title", getKeyD kvs "title" (.str "Generated Chart")),
                ("style", getKeyD kvs "style" defaultStyle),
                ("labels", getKeyD kvs "labels"
                  (.arr [.str "Label1", .str "Label2", .str "Label3"])),
                ("data", getKeyD kvs "data" constructDataDefault)],
             summary := none }, st')
      | some _ => (fallback_artifact component_type chart_type, st')

/-- `ArtifactSummaryProvider.provide_summary` (lines 241–280): one
completion call, its failure propagates. -/
def provide_summary (component_type chart_type artifact_data : Json)
    (history : List Msg) (st : GptState) : Except PyErr String × GptState :=
  let context_summary := if history.isEmpty then "" else joinLast5 history
  match callGpt (summary_prompt context_summary component_type chart_type artifact_data) st with
  | (.error e, st') => (.error e, st')
  | (.ok summary, st') => (.ok (pyStrip summary), st')

/-- `ParentAgent.generate_fallback_table` (lines 491–508). -/
def generate_fallback_table : AgentResponse :=
  { has_artifact := true, content := none, component_type := .str "Table",
    data := .obj
      [("type", .str "table"),
       ("title", .str "Data Summary"),
       ("headers", .arr [.str "Category", .str "Value"]),
       ("rows", .arr [.obj [("Category", .str "No Data"), ("Value", .str "N/A")]]),
       ("labels", .arr [.str "Category", .str "Value"]),
       ("data", .obj [("values",
         .arr [.obj [("Category", .str "No Data"), ("Value", .str "N/A")]])])],
    summary := none }

/-- `ParentAgent.construct_table_artifact` (lines 436–489): the completion
call is outside the `try`, so its failure propagates; the `try` catches only
`JSONDecodeError` (falling back to the fallback table), so a parsed non-dict
payload raises `AttributeError` out of the call. -/
def construct_table_artifact (prompt : String) (analysis : Json)
    (history : List Msg) (st : GptState) : Except PyErr AgentResponse × GptState :=
  let context_summary := format_conversation_history history
  match callGpt (table_prompt prompt analysis context_summary) st with
  | (.error e, st') => (.error e, st')
  | (.ok response₀, st') =>
      let response := cleanFences response₀
      match json_loads response with
      | none => (.ok generate_fallback_table, st')
      | some (.obj kvs) =>
          (.ok { has_artifact := true, content := none, component_type := .str "Table",
                 data := .obj
                   [("type", .str "table"),
                    ("title", getKeyD kvs "title" (.str "Data Table")),
                    ("headers", getKeyD kvs "headers" (.arr [])),
                    ("rows", getKeyD kvs "rows" (.arr [])),
                    ("labels", getKeyD kvs "headers" (.arr [])),
                    ("data", .obj [("values", getKeyD kvs "rows" (.arr []))])],
                 summary := none }, st')
      | some _ => (.error .attributeError, st')

/-- `ParentAgent.generate_fallback_card` (lines 588–611). -/
def generate_fallback_card : AgentResponse :=
  { has_artifact := true, content := none, component_type := .str "Card",
    data := .obj
      [("type", .str "card"),
       ("title", .str "Summary Card"),
       ("metrics", .arr [.obj
         [("label", .str "Status"), ("value", .str "No Data"),
          ("trend", .str "stable"),
          ("description", .str "Unable to generate metrics")]]),
       ("summary", .str "Failed to generate card content"),
       ("footer", .str "Please try again or contact support"),
       ("labels", .arr [.str "Status"]),
       ("data", .obj [("values", .arr [.str "No Data"])])],
    summary := none }

/-- `[metric["label"] for metric in metrics]`: `none` when the comprehension
would raise (non-list `metrics`, or an element without the key). -/
def metricField (field : String) : Json → Option (List Json)
  | .arr ms => ms.mapM (fun m =>
      match m with
      | .obj kvs => lookupKey kvs field
      | _ => none)
  | _ => none

/-- `ParentAgent.construct_card_artifact` (lines 510–586): the whole body is
wrapped in `try/except`, so every failure (completion, parse, comprehension)
yields the fallback card. -/
def construct_card_artifact (prompt : String) (analysis : Json)
    (history : List Msg) (st : GptState) : AgentResponse × GptState :=
  let context_summary := format_conversation_history history
  match callGpt (card_prompt prompt analysis context_summary) st with
  | (.error _, st') => (generate_fallback_card, st')
  | (.ok response₀, st') =>
      let response := cleanFences response₀
      match json_loads response with
      | none => (generate_fallback_card, st')
      | some (.obj kvs) =>
          let metrics := getKeyD kvs "metrics" (.arr [])
          match metricField "label" metrics, metricField "value" metrics with
          | some labels, some values =>
              ({ has_artifact := true, content := none, component_type := .str "Card",
                 data := .obj
                   [("type", .str "card"),
                    ("title", getKeyD kvs "title" (.str "Metric Summary")),
                    ("metrics", metrics),
                    ("summary", getKeyD kvs "summary" (.str "No summary available")),
                    ("footer", getKeyD kvs "footer" (.str "")),
                    ("labels", .arr labels),
                    ("data", .obj [("values", .arr values)])],
                 summary := none }, st')
          | _, _ => (generate_fallback_card, st')
      | some _ => (generate_fallback_card, st')

/-! ## WorkflowDecider (app/services/agents/workflow_decider.py) -/

/-- The decision dict `decide_workflow` returns (lines 78–83): exactly the
keys `selected_agent`, `analysis`, `reasoning`, `artifact_creation`. -/
structure WorkflowMeta where
  selected_agent : Json
  analysis : Json
  reasoning : Json
  artifact_creation : Json
deriving Repr, DecidableEq

/-- The keyword indicators of `decide_workflow`'s `except` branch (line 73). -/
def query_indicators : List String :=
  ["statistics", "compare", "trends", "metrics", "performance", "data", "table", "chart"]

/-- `WorkflowDecider.decide_workflow` (lines 20–86): one completion call
(outside the `try`, so its failure propagates), tolerant JSON extraction,
defaults applied via `.get`; the keyword fallback runs only if the `try`
body raises (which requires a non-dict extraction result); the input
metadata is read with `.get("analysis", ...)`, raising on a non-dict. -/
def decide_workflow (metadata : Json) (st : GptState) :
    Except PyErr WorkflowMeta × GptState :=
  match callGpt (workflow_decision_prompt metadata) st with
  | (.error e, st') => (.error e, st')
  | (.ok gpt_response, st') =>
      match extract_clean_json gpt_response with
      | .obj kvs =>
          let requires_artifact := getKeyD kvs "requires_artifact" (.bool false)
          let selected_agent := getKeyD kvs "selected_agent" (.str "ParentAgent")
          let reasoning := getKeyD kvs "reasoning" (.str "No reasoning provided")
          match metadata with
          | .obj mk =>
              (.ok { selected_agent := selected_agent,
                     analysis := getKeyD mk "analysis" (.str "No analysis available"),
                     reasoning := reasoning,
                     artifact_creation := requires_artifact }, st')
          | _ => (.error .attributeError, st')
      | _ =>
          match metadata with
          | .obj mk =>
              match getKeyD mk "analysis" (.str "") with
              | .str s =>
                  let requires_artifact :=
                    query_indicators.any (fun ind => charsInfix ind.toList s.toLower.toList)
                  match metadata with
                  | .obj mk₂ =>
                      (.ok { selected_agent := .str "ParentAgent",
                             analysis := getKeyD mk₂ "analysis" (.str "No analysis available"),
                             reasoning := .str "Fallback analysis based on query keywords and content type",
                             artifact_creation := .bool requires_artifact }, st')
                  | _ => (.error .attributeError, st')
              | _ => (.error .attributeError, st')
          | _ => (.error .attributeError, st')

/-! ## ParentAgent.process (parent_agent.py lines 292–421) -/

/-- The tail of `ParentAgent.process` after an artifact was constructed:
overwrite `content` with the stripped intro text, and (the constructors all
set `has_artifact=True`) fetch a summary with
`chart_type=artifact_response["data"].get("type")` — a completion failure in
the summary call propagates. -/
def process_finish (artifact_response : AgentResponse) (intro_content : String)
    (component_type : Json) (history : List Msg) (st : GptState) :
    Except PyErr AgentResponse × GptState :=
  let r := { artifact_response with content := some (pyStrip intro_content) }
  if r.has_artifact then
    match pyGet r.data "type" with
    | .error e => (.error e, st)
    | .ok chart_type =>
        match provide_summary component_type chart_type r.data history st with
        | (.error e, st') => (.error e, st')
        | (.ok summary, st') => (.ok { r with summary := some summary }, st')
  else (.ok r, st)

/-- The dispatch on the parsed component decision (lines 379–406): chart
construction only when `component_type == "Chart"` and `chart_type` is
truthy; `Table` and `Card` have their own constructors; anything else falls
back to `QuickResponder` — there is no correction round. -/
def process_dispatch (prompt : String) (metadata : WorkflowMeta) (history : List Msg)
    (intro_content : String) (component_type chart_type : Json) (st : GptState) :
    Except PyErr AgentResponse × GptState :=
  if component_type = .str "Chart" ∧ chart_type.truthy then
    let (ar, st') := construct_artifact component_type chart_type prompt history st
    process_finish ar intro_content component_type history st'
  else if component_type = .str "Table" then
    match construct_table_artifact prompt metadata.analysis history st with
    | (.error e, st') => (.error e, st')
    | (.ok ar, st') => process_finish ar intro_content component_type history st'
  else if component_type = .str "Card" then
    let (ar, st') := construct_card_artifact prompt metadata.analysis history st
    process_finish ar intro_content component_type history st'
  else
    quickRespond prompt history st

/-- `ParentAgent.process`: quick path when the workflow metadata does not
request an artifact; otherwise intro call, component-decision call (a parse
failure silently defaults to `Table` with `chart_type=None`; a parsed
non-dict raises `AttributeError`), dispatch, then summary. -/
def process (prompt : String) (metadata : WorkflowMeta) (history : List Msg)
    (st : GptState) : Except PyErr AgentResponse × GptState :=
  let analysis := metadata.analysis
  let reasoning := metadata.reasoning
  if !metadata.artifact_creation.truthy then
    quickRespond prompt history st
  else
    match callGpt (intro_prompt prompt analysis history) st with
    | (.error e, st₁) => (.error e, st₁)
    | (.ok intro_content, st₁) =>
        match callGpt (component_decision_prompt analysis reasoning prompt history) st₁ with
        | (.error e, st₂) => (.error e, st₂)
        | (.ok response, st₂) =>
            match json_loads response with
            | none =>
                process_dispatch prompt metadata history intro_content (.str "Table") .null st₂
            | some (.obj kvs) =>
                let component_type := getKeyD kvs "component_type" (.str "Table")
                let chart_type :=
                  if component_type = .str "Chart" then
                    (lookupKey kvs "chart_type").getD .null
                  else .null
                process_dispatch prompt metadata history intro_content component_type chart_type st₂
            | some _ => (.error .attributeError, st₂)

/-! ## ResponseStructurer (app/services/agents/response_structurer.py)

The `metadata` block of the structured response (timestamps / query echo /
processing info, lines 61–69) only carries wall-clock values and context
length; it is outside the model, and no property below mentions it. -/

/-- The stable response shape the structurer produces. -/
structure StructuredResponse where
  content : String
  has_artifact : Bool
  component_type : Json
  sub_type : Json
  data : Json
  summary : Option String
deriving Repr, DecidableEq

/-- `ResponseStructurer._generate_fallback_response` (lines 135–154). -/
def fallback_structured_response : StructuredResponse :=
  { content := "Unable to generate structured response", has_artifact := false,
    component_type := .null, sub_type := .null, data := .null, summary := none }

/-- The `elif` chain of `_extract_values` after the nested lookup missed. -/
def extract_values_rest (kvs : List (String × Json)) : Json :=
  match lookupKey kvs "values" with
  | some v => v
  | none =>
      match lookupKey kvs "rows" with
      | some r => r
      | none => .arr []

/-- `ResponseStructurer._extract_values` (lines 87–95): prefer
`data["values"]` nested under `"data"`, then top-level `"values"`, then
`"rows"`, else `[]`; the `in`/indexing operators raise on non-container
values exactly as in Python. -/
def extract_values (kvs : List (String × Json)) : Except PyErr Json :=
  match lookupKey kvs "data" with
  | some d =>
      match pyIn d "values" with
      | .error e => .error e
      | .ok true => pyIndex d "values"
      | .ok false => .ok (extract_values_rest kvs)
  | none => .ok (extract_values_rest kvs)

/-- `ResponseStructurer._process_component_specific_data` (lines 97–133):
per-type additions merged into the already-built `data` dict. -/
def component_specific_update (component_type : Json) (kvs : List (String × Json))
    (dataObj : List (String × Json)) : List (String × Json) :=
  if component_type = .str "Table" then
    objUpdate dataObj
      [("headers", getKeyD kvs "headers" (.arr [])),
       ("rows", getKeyD kvs "rows" (.arr [])),
       ("title", getKeyD kvs "title" (.str "Data Table"))]
  else if component_type = .str "Chart" then
    objUpdate dataObj
      [("title", getKeyD kvs "title" (.str "Chart")),
       ("axis_labels", .obj
         [("x", getKeyD kvs "x_axis_label" (.str "")),
          ("y", getKeyD kvs "y_axis_label" (.str ""))]),
       ("config", .obj
         [("show_grid", .bool true), ("show_legend", .bool true),
          ("interactive", .bool true)])]
  else if component_type = .str "Card" then
    objUpdate dataObj
      [("title", getKeyD kvs "title" (.str "Metric Card")),
       ("metrics", getKeyD kvs "metrics" (.arr [])),
       ("footer", getKeyD kvs "footer" (.str ""))]
  else dataObj

/-- Python falsiness of the `content` value (absent, `None` or `""`). -/
def contentFalsy : Option String → Bool
  | none => true
  | some s => s.isEmpty

/-- The pure part of `structure_response` (lines 46–78): builds the
standardized structure from the parent metadata and the (possibly
regenerated) content; any raise here is caught by the surrounding
`try/except`. -/
def build_structured (parent : AgentResponse) (content : Option String) :
    Except PyErr StructuredResponse := do
  let has_artifact := parent.has_artifact
  let component_type := if has_artifact then parent.component_type else Json.null
  let artifact_data := parent.data
  let finalContent :=
    match content with
    | some s => if s.isEmpty then "Let me help you visualize this data." else pyStrip s
    | none => "Let me help you visualize this data."
  let sub_type ←
    (if component_type = .str "Chart" then pyGet artifact_data "type" else pure Json.null)
  if has_artifact then
    match artifact_data with
    | .obj kvs => do
        let values ← extract_values kvs
        let dataObj :=
          [("labels", getKeyD kvs "labels" (.arr [])),
           ("values", values),
           ("style", getKeyD kvs "style" defaultStyle)]
        pure { content := finalContent, has_artifact := has_artifact,
               component_type := component_type, sub_type := sub_type,
               data := .obj (component_specific_update component_type kvs dataObj),
               summary := parent.summary }
    | _ => .error .attributeError
  else
    pure { content := finalContent, has_artifact := has_artifact,
           component_type := component_type, sub_type := sub_type,
           data := Json.null, summary := none }

/-- `ResponseStructurer.structure_response` (lines 18–85): regenerate the
lead-in content with one completion call only when an artifact is present
and the content is falsy; the whole body sits in `try/except Exception`, so
the function never raises — every internal failure (including a completion
failure) yields the fallback response. -/
def structure_response (parent : AgentResponse) (original_prompt : String)
    (history : List Msg) (st : GptState) : StructuredResponse × GptState :=
  let _ := history
  if contentFalsy parent.content ∧ parent.has_artifact then
    match callGpt (content_prompt original_prompt parent.component_type) st with
    | (.error _, st') => (fallback_structured_response, st')
    | (.ok c, st') =>
        match build_structured parent (some c) with
        | .ok r => (r, st')
        | .error _ => (fallback_structured_response, st')
  else
    match build_structured parent parent.content with
    | .ok r => (r, st)
    | .error _ => (fallback_structured_response, st)

/-! ## Spec-side definitions and concrete inputs used by the theorems -/

/-- The allowed chart-subtype set from the specification (§2, §3): the code
itself keeps no such list. -/
def allowed_chart_subtypes : List String :=
  ["bar", "line", "pie", "radial", "radar", "area"]

/-- Workflow metadata requesting an artifact (as produced by
`decide_workflow`). -/
def artifactMeta : WorkflowMeta :=
  { selected_agent := .str "ParentAgent", analysis := .str "A",
    reasoning := .str "R", artifact_creation := .bool true }

/-- A chart `ArtifactPayload` conforming to the artifact template (envelope
plus nested data/metadata), used to probe the structurer. -/
def cexChartPayload : Json := .obj
  [("type", .str "bar"), ("title", .str "T"),
   ("style", .obj [("width", .str "800px"), ("height", .str "500px")]),
   ("labels", .arr [.str "A", .str "B"]),
   ("data", .obj [("values", .arr [.num 1, .num 2]),
                  ("metadata", .obj [("description", .str "D")])])]

/-- A parent-agent result carrying `cexChartPayload` with lead-in content
and summary already present. -/
def cexChartParent : AgentResponse :=
  { has_artifact := true, content := some "Here", component_type := .str "Chart",
    data := cexChartPayload, summary := some "Sum" }

/-- What the structurer actually produces as `data` for `cexChartParent`:
a rebuilt `{labels, values, style}` dict plus Chart extras — not the
payload itself. -/
def cexStructuredData : Json := .obj
  [("labels", .arr [.str "A", .str "B"]),
   ("values", .arr [.num 1, .num 2]),
   ("style", .obj [("width", .str "800px"), ("height", .str "500px")]),
   ("title", .str "T"),
   ("axis_labels", .obj [("x", .str ""), ("y", .str "")]),
   ("config", .obj [("show_grid", .bool true), ("show_legend", .bool true),
                    ("interactive", .bool true)])]

/-! # Theorems -/

/-! ## Helper lemmas -/

theorem lookupKey_objInsert_ne (kvs : List (String × Json)) (k k' : String) (v : Json)
    (h : k' ≠ k) : lookupKey (objInsert kvs k' v) k = lookupKey kvs k := by
  induction kvs with
  | nil => simp [objInsert, lookupKey, h]
  | cons kv rest ih =>
      obtain ⟨k₀, v₀⟩ := kv
      by_cases hk : k₀ = k'
      · subst hk
        simp [objInsert, lookupKey, h]
      · simp only [objInsert, if_neg hk, lookupKey]
        by_cases hk₂ : k₀ = k
        · simp [hk₂]
        · simp [hk₂, ih]

theorem lookupKey_component_specific (ct : Json) (kvs dataObj : List (String × Json))
    (k : String) (h : k = "labels" ∨ k = "values" ∨ k = "style") :
    lookupKey (component_specific_update ct kvs dataObj) k = lookupKey dataObj k := by
  have hne : ∀ k' : String,
      k' = "headers" ∨ k' = "rows" ∨ k' = "title" ∨ k' = "axis_labels" ∨
      k' = "config" ∨ k' = "metrics" ∨ k' = "footer" → k' ≠ k := by
    rcases h with h | h | h <;> subst h <;>
      (intro k' hk'; rcases hk' with h | h | h | h | h | h | h <;> subst h <;> decide)
  unfold component_specific_update
  split
  · simp only [objUpdate, List.foldl]
    rw [lookupKey_objInsert_ne _ _ _ _ (hne _ (by tauto)),
        lookupKey_objInsert_ne _ _ _ _ (hne _ (by tauto)),
        lookupKey_objInsert_ne _ _ _ _ (hne _ (by tauto))]
  · split
    · simp only [objUpdate, List.foldl]
      rw [lookupKey_objInsert_ne _ _ _ _ (hne _ (by tauto)),
          lookupKey_objInsert_ne _ _ _ _ (hne _ (by tauto)),
          lookupKey_objInsert_ne _ _ _ _ (hne _ (by tauto))]
    · split
      · simp only [objUpdate, List.foldl]
        rw [lookupKey_objInsert_ne _ _ _ _ (hne _ (by tauto)),
            lookupKey_objInsert_ne _ _ _ _ (hne _ (by tauto)),
            lookupKey_objInsert_ne _ _ _ _ (hne _ (by tauto))]
      · rfl

theorem lastN_eq_nil_iff {α : Type} (n : Nat) (hn : 0 < n) (l : List α) :
    lastN n l = [] ↔ l = [] := by
  unfold lastN
  constructor
  · intro h
    have hlen := List.drop_eq_nil_iff.mp h
    cases l with
    | nil => rfl
    | cons a as =>
        exfalso
        simp only [List.length_cons] at hlen
        omega
  · intro h; subst h; simp

theorem isEmpty_eq_of_lastN_eq {α : Type} {l₁ l₂ : List α}
    (h : lastN 5 l₁ = lastN 5 l₂) : l₁.isEmpty = l₂.isEmpty := by
  cases l₁ with
  | nil =>
      have : lastN 5 l₂ = [] := by rw [← h]; rfl
      have h₂ := (lastN_eq_nil_iff 5 (by omega) l₂).mp this
      subst h₂; rfl
  | cons a as =>
      cases l₂ with
      | nil =>
          have : lastN 5 (a :: as) = [] := by rw [h]; rfl
          have h₁ := (lastN_eq_nil_iff 5 (by omega) (a :: as)).mp this
          exact absurd h₁ (by simp)
      | cons b bs => rfl

theorem joinLast5_congr {l₁ l₂ : List Msg} (h : lastN 5 l₁ = lastN 5 l₂) :
    joinLast5 l₁ = joinLast5 l₂ := by
  unfold joinLast5
  rw [h]

theorem quick_context_congr {l₁ l₂ : List Msg} (h : lastN 5 l₁ = lastN 5 l₂) :
    quick_context l₁ = quick_context l₂ := by
  unfold quick_context
  rw [isEmpty_eq_of_lastN_eq h, joinLast5_congr h]

theorem format_conversation_history_congr {l₁ l₂ : List Msg}
    (h : lastN 5 l₁ = lastN 5 l₂) :
    format_conversation_history l₁ = format_conversation_history l₂ := by
  unfold format_conversation_history
  rw [isEmpty_eq_of_lastN_eq h, joinLast5_congr h]

theorem pyFind_spec (ch : Char) :
    ∀ (l : List Char) (i : Nat), pyFind ch l = some i →
      l.get? i = some ch ∧ ∀ k, k < i → l.get? k ≠ some ch := by
  intro l
  induction l with
  | nil => intro i h; cases h
  | cons c cs ih =>
      intro i h
      unfold pyFind at h
      by_cases hc : c = ch
      · rw [if_pos hc] at h
        cases h
        exact ⟨by simp [hc], fun k hk => by omega⟩
      · rw [if_neg hc] at h
        rcases Option.map_eq_some'.mp h with ⟨j, hj, rfl⟩
        obtain ⟨h₁, h₂⟩ := ih j hj
        refine ⟨by simpa using h₁, ?_⟩
        intro k hk
        cases k with
        | zero => simpa using fun h => hc (Option.some.inj h)
        | succ k' =>
            simp only [List.get?_cons_succ]
            exact h₂ k' (by omega)

theorem pyFind_eq_none (ch : Char) :
    ∀ l : List Char, pyFind ch l = none ↔ ch ∉ l := by
  intro l
  induction l with
  | nil => simp [pyFind]
  | cons c cs ih =>
      unfold pyFind
      by_cases hc : c = ch
      · simp [hc]
      · simp only [if_neg hc, Option.map_eq_none', ih, List.mem_cons]
        constructor
        · intro h hmem
          rcases hmem with h₂ | h₂
          · exact hc h₂.symm
          · exact h h₂
        · intro h hmem
          exact h (Or.inr hmem)

theorem pyFind_first (ch : Char) (l : List Char) (i : Nat)
    (h₁ : l.get? i = some ch) (h₂ : ∀ k, k < i → l.get? k ≠ some ch) :
    pyFind ch l = some i := by
  have hmem : ch ∈ l := List.get?_mem h₁
  have hsome : pyFind ch l ≠ none := fun h => ((pyFind_eq_none ch l).mp h) hmem
  rcases hi' : pyFind ch l with _ | i'
  · exact absurd hi' hsome
  · obtain ⟨h₁', h₂'⟩ := pyFind_spec ch l i' hi'
    rcases Nat.lt_trichotomy i i' with hlt | heq | hgt
    · exact absurd h₁ (h₂' i hlt)
    · rw [heq]
    · exact absurd h₁' (h₂ i' hgt)

theorem pyRfind_eq_none_aux (ch : Char) :
    ∀ l : List Char, pyRfind ch l = none → ch ∉ l := by
  intro l
  induction l with
  | nil => simp
  | cons c cs ih =>
      unfold pyRfind
      rcases htail : pyRfind ch cs with _ | j'
      · by_cases hc : c = ch
        · simp [hc]
        · intro _ hmem
          rcases List.mem_cons.mp hmem with h₂ | h₂
          · exact hc h₂.symm
          · exact ih htail h₂
      · intro h; cases h

theorem pyRfind_spec (ch : Char) :
    ∀ (l : List Char) (j : Nat), pyRfind ch l = some j →
      l.get? j = some ch ∧ ∀ k, j < k → l.get? k ≠ some ch := by
  intro l
  induction l with
  | nil => intro j h; cases h
  | cons c cs ih =>
      intro j h
      unfold pyRfind at h
      rcases htail : pyRfind ch cs with _ | j'
      · rw [htail] at h
        by_cases hc : c = ch
        · rw [if_pos hc] at h
          cases h
          refine ⟨by simp [hc], ?_⟩
          intro k hk
          cases k with
          | zero => omega
          | succ k' =>
              simp only [List.get?_cons_succ]
              intro habs
              have hmem : ch ∈ cs := List.get?_mem habs
              exact pyRfind_eq_none_aux ch cs htail hmem
        · rw [if_neg hc] at h; cases h
      · rw [htail] at h
        cases h
        obtain ⟨h₁, h₂⟩ := ih j' htail
        refine ⟨by simpa using h₁, ?_⟩
        intro k hk
        cases k with
        | zero => omega
        | succ k' =>
            simp only [List.get?_cons_succ]
            exact h₂ k' (by omega)

theorem pyRfind_last (ch : Char) (l : List Char) (j : Nat)
    (h₁ : l.get? j = some ch)
    (h₂ : ∀ k, k < l.length → j < k → l.get? k ≠ some ch) :
    pyRfind ch l = some j := by
  have hmem : ch ∈ l := List.get?_mem h₁
  rcases hj' : pyRfind ch l with _ | j'
  · exact absurd hmem (pyRfind_eq_none_aux ch l hj')
  · obtain ⟨h₁', h₂'⟩ := pyRfind_spec ch l j' hj'
    rcases Nat.lt_trichotomy j j' with hlt | heq | hgt
    · have hlen : j' < l.length := by
        rcases List.get?_eq_some.mp h₁' with ⟨hl, _⟩
        exact hl
      exact absurd h₁' (h₂ j' hlen hlt)
    · rw [heq]
    · exact absurd h₁ (h₂' j hgt)

theorem pyRfind_eq_none (ch : Char) (l : List Char) :
    pyRfind ch l = none ↔ ch ∉ l := by
  constructor
  · exact pyRfind_eq_none_aux ch l
  · intro h
    rcases hj : pyRfind ch l with _ | j
    · rfl
    · exact absurd (List.get?_mem (pyRfind_spec ch l j hj).1) h

/-! ## C7 — ResponseExtractor characterization -/

/-- C7 (confirmed): `extract_clean_json` removes the code-fence markers and
trims whitespace (`cleanFences`), locates the first `{` and the last `}` of
the cleaned text, and returns the JSON parse of that substring; when the
braces are absent (and, by the `getD`, when the parse fails) it returns the
empty object.  The function is total — it never raises.  The first/last
positions are characterized here by explicit quantifiers, independently of
the `pyFind`/`pyRfind` recursions used in the definition. -/
theorem C7_extract_clean_json (response : String) :
    (('\x7b' ∉ (cleanFences response).toList ∨ '\x7d' ∉ (cleanFences response).toList) →
      extract_clean_json response = Json.obj []) ∧
    (∀ i j,
      ((cleanFences response).toList.get? i = some '\x7b' ∧
        ∀ k, k < i → (cleanFences response).toList.get? k ≠ some '\x7b') →
      ((cleanFences response).toList.get? j = some '\x7d' ∧
        ∀ k, k < (cleanFences response).toList.length → j < k →
          (cleanFences response).toList.get? k ≠ some '\x7d') →
      extract_clean_json response =
        (json_loads (String.mk
          (((cleanFences response).toList.drop i).take (j + 1 - i)))).getD
          (Json.obj [])) := by
  constructor
  · intro h
    simp only [extract_clean_json]
    rcases h with h | h
    · rw [(pyFind_eq_none '\x7b' _).mpr h]
    · rw [(pyRfind_eq_none '\x7d' _).mpr h]
      rcases pyFind '\x7b' (cleanFences response).toList with _ | i <;> rfl
  · intro i j hi hj
    have hf := pyFind_first '\x7b' (cleanFences response).toList i hi.1 hi.2
    have hr := pyRfind_last '\x7d' (cleanFences response).toList j hj.1 hj.2
    simp only [extract_clean_json]
    rw [hf, hr]
    show (match json_loads (String.mk
        (((cleanFences response).toList.drop i).take (j + 1 - i))) with
      | some parsed => parsed
      | none => Json.obj []) =
      (json_loads (String.mk
        (((cleanFences response).toList.drop i).take (j + 1 - i)))).getD (Json.obj [])
    rcases json_loads (String.mk
        (((cleanFences response).toList.drop i).take (j + 1 - i))) with _ | v <;> rfl

/-- C7 (witness): the characterization applied to concrete completion text:
one with no braces, one with a fenced JSON object surrounded by prose. -/
theorem C7_witness :
    extract_clean_json "no braces at all" = Json.obj [] ∧
    extract_clean_json "```json x\x7b\x22a\x22: 1\x7d y```" =
      Json.obj [("a", Json.num 1)] := by
  constructor
  · exact (C7_extract_clean_json "no braces at all").1 (Or.inl (by decide))
  · exact ((C7_extract_clean_json "```json x\x7b\x22a\x22: 1\x7d y```").2 1 8
      ⟨by decide, by decide⟩ ⟨by decide, by decide⟩).trans (by rfl)

/-! ## C3 — WorkflowDecider fallback on empty extraction -/

/-- C3 (counterexample): with an upstream hint `requires_artifact=true` in
the input metadata and a completion text from which extraction yields the
empty object, `decide_workflow` returns `artifact_creation=false` — the
upstream hint is ignored, not used as the default — and the result record
carries no `complexity_level` at all (its only fields are `selected_agent`,
`analysis`, `reasoning`, `artifact_creation`). -/
theorem C3_counterexample :
    (decide_workflow
        (.obj [("analysis", .str "sales data"), ("requires_artifact", .bool true)])
        ⟨[.ok "no json here"], []⟩).1 =
      .ok { selected_agent := .str "ParentAgent", analysis := .str "sales data",
            reasoning := .str "No reasoning provided",
            artifact_creation := .bool false } ∧
    Json.bool false ≠ Json.bool true := by
  exact ⟨rfl, by decide⟩

/-- C3 (amended): when extraction of the decision completion yields an empty
object, `decide_workflow` defaults `requires_artifact` to `False` (any
upstream hint in the metadata is ignored), copies `analysis` from the input
metadata (defaulting to "No analysis available"), and sets the fixed default
reasoning; the result has no `complexity_level` field. -/
theorem C3_amended (mk : List (String × Json)) (resp : String)
    (rest : List (Except PyErr String)) (sent : List String)
    (hext : extract_clean_json resp = .obj []) :
    decide_workflow (.obj mk) ⟨.ok resp :: rest, sent⟩ =
      (.ok { selected_agent := .str "ParentAgent",
             analysis := getKeyD mk "analysis" (.str "No analysis available"),
             reasoning := .str "No reasoning provided",
             artifact_creation := .bool false },
       ⟨rest, sent ++ [workflow_decision_prompt (.obj mk)]⟩) := by
  simp [decide_workflow, callGpt, hext, getKeyD, lookupKey]

/-- C3 (witness): the amended theorem applied at a concrete input. -/
theorem C3_witness :
    decide_workflow (.obj [("analysis", .str "x")]) ⟨[.ok "plain text"], []⟩ =
      (.ok { selected_agent := .str "ParentAgent", analysis := .str "x",
             reasoning := .str "No reasoning provided",
             artifact_creation := .bool false },
       ⟨[], [workflow_decision_prompt (.obj [("analysis", .str "x")])]⟩) := by
  have h := C3_amended [("analysis", .str "x")] "plain text" [] [] (by rfl)
  simpa [getKeyD, lookupKey] using h

/-! ## C6 — ResultNormalizer I/O behavior -/

/-- C6 (counterexample): with an artifact present but no lead-in content,
`structure_response` does invoke the completion client — the sent-prompt
trace after the call is non-empty, refuting "performs no I/O / never
invokes the completion client". -/
theorem C6_counterexample :
    (structure_response
        { has_artifact := true, content := none, component_type := .str "Chart",
          data := cexChartPayload, summary := none }
        "q" [] ⟨[.ok "Intro"], []⟩).2.sent =
      [content_prompt "q" (.str "Chart")] := by
  rfl

/-- C6 (amended): `structure_response` is a total function (every internal
failure is absorbed into the fallback response, so it never raises), but it
performs completion I/O exactly when an artifact is present and the incoming
content is falsy: the prompts it sends are `[content_prompt ...]` in that
case and none otherwise. -/
theorem C6_amended (parent : AgentResponse) (q : String) (history : List Msg)
    (st : GptState) :
    (structure_response parent q history st).2.sent =
      st.sent ++
        (if contentFalsy parent.content ∧ parent.has_artifact then
          [content_prompt q parent.component_type]
        else []) := by
  unfold structure_response
  split
  · rcases st with ⟨script, sent⟩
    cases script with
    | nil => simp [callGpt]
    | cons r rest =>
        cases r with
        | error e => simp [callGpt]
        | ok s =>
            simp only [callGpt]
            split <;> simp
  · split <;> simp

/-! ## C8 — QuickResponder contract -/

/-- C8 (counterexample): the claim's parenthetical "the only error class
allowed to escape" fails: when the component-decision completion parses to a
non-dict JSON value (here `42`), `ParentAgent.process` raises an
`AttributeError` (`.get` on a non-dict), an escaping error that is not a
completion-service failure. -/
theorem C8_counterexample :
    (process "p" artifactMeta [] ⟨[.ok "I", .ok "42"], []⟩).1 =
      .error .attributeError ∧
    ∀ m : String, PyErr.attributeError ≠ .gptFailure m := by
  exact ⟨rfl, fun m h => by cases h⟩

/-- C8 (amended): `QuickResponder.respond` makes exactly one completion call
(the quick-response prompt is appended to the trace and one scripted outcome
is consumed) with no retry; on success it returns `has_artifact=false` with
the stripped completion text as content; a completion-service failure
propagates unchanged, and on the no-artifact path `process` is exactly
`quickRespond`, so that failure escapes the pipeline.  (Completion failures
are not literally the only escaping error class: see the counterexample.) -/
theorem C8_amended (prompt : String) (history : List Msg) (st : GptState) :
    ((quickRespond prompt history st).2.sent =
        st.sent ++ [quick_response_prompt (quick_context history) prompt]) ∧
    ((quickRespond prompt history st).2.script = st.script.drop 1) ∧
    (∀ s rest, st.script = .ok s :: rest →
      quickRespond prompt history st =
        (.ok { has_artifact := false, content := some (pyStrip s),
               component_type := .null, data := .null, summary := none },
         { script := rest,
           sent := st.sent ++ [quick_response_prompt (quick_context history) prompt] })) ∧
    (∀ e rest, st.script = .error e :: rest →
      (quickRespond prompt history st).1 = .error e) ∧
    (∀ metadata : WorkflowMeta, metadata.artifact_creation.truthy = false →
      process prompt metadata history st = quickRespond prompt history st) := by
  refine ⟨?_, ?_, ?_, ?_, ?_⟩
  · rcases st with ⟨script, sent⟩
    cases script with
    | nil => simp [quickRespond, callGpt]
    | cons r rest => cases r <;> simp [quickRespond, callGpt]
  · rcases st with ⟨script, sent⟩
    cases script with
    | nil => simp [quickRespond, callGpt]
    | cons r rest => cases r <;> simp [quickRespond, callGpt]
  · intro s rest hsc
    rcases st with ⟨script, sent⟩
    cases hsc
    simp [quickRespond, callGpt]
  · intro e rest hsc
    rcases st with ⟨script, sent⟩
    cases hsc
    simp [quickRespond, callGpt]
  · intro metadata hmeta
    unfold process
    rw [hmeta]
    simp

/-- C8 (witness): the amended theorem applied at concrete inputs, covering
the success case, the propagation case, and the no-artifact pipeline path. -/
theorem C8_witness :
    (quickRespond "hi" [] ⟨[.ok " ok "], []⟩ =
      (.ok { has_artifact := false, content := some "ok",
             component_type := .null, data := .null, summary := none },
       { script := [], sent := [quick_response_prompt (quick_context []) "hi"] })) ∧
    ((quickRespond "hi" [] ⟨[.error (.gptFailure "down")], []⟩).1 =
      .error (.gptFailure "down")) ∧
    (process "hi"
        { selected_agent := .str "ParentAgent", analysis := .str "",
          reasoning := .str "", artifact_creation := .bool false }
        [] ⟨[.error (.gptFailure "down")], []⟩ =
      quickRespond "hi" [] ⟨[.error (.gptFailure "down")], []⟩) := by
  refine ⟨?_, ?_, ?_⟩
  · have h := (C8_amended "hi" [] ⟨[.ok " ok "], []⟩).2.2.1 " ok " [] rfl
    simpa using h
  · exact (C8_amended "hi" [] ⟨[.error (.gptFailure "down")], []⟩).2.2.2.1
      (.gptFailure "down") [] rfl
  · exact (C8_amended "hi" [] ⟨[.error (.gptFailure "down")], []⟩).2.2.2.2
      _ (by decide)

/-! ## C1 — build failure never degrades to the text path -/

/-- C1 (counterexample): with the artifact path selected (`Chart`/`bar`) and
a construction completion that contains no parseable JSON, the pipeline does
NOT fall back to `QuickResponder`: `construct_artifact` reports success with
the fallback artifact, and the final result has `has_artifact = true` — the
claim requires `has_artifact = false` with a `QuickResponder` fallback. -/
theorem C1_counterexample :
    process "p" artifactMeta []
        ⟨[.ok "I", .ok "\x7b\x22component_type\x22: \x22Chart\x22, \x22chart_type\x22: \x22bar\x22\x7d",
          .ok "oops", .ok "S"], []⟩ =
      (.ok { has_artifact := true, content := some "I",
             component_type := .str "Chart",
             data := (fallback_artifact (.str "Chart") (.str "bar")).data,
             summary := some "S" },
       { script := [],
         sent := [intro_prompt "p" (.str "A") [],
                  component_decision_prompt (.str "A") (.str "R") "p" [],
                  artifact_prompt (.str "bar") (.str "Chart") "p"
                    (format_conversation_history []),
                  summary_prompt "" (.str "Chart") (.str "bar")
                    (fallback_artifact (.str "Chart") (.str "bar")).data] }) := by
  rfl

/-- C1 (amended): when the construction completion yields no parseable JSON,
`construct_artifact` reports success — not failure — returning the fallback
artifact with `has_artifact = true`; the Orchestrator therefore never falls
back to `QuickResponder` on a build failure, and the pipeline result keeps
`has_artifact = true` with the intro text as content. -/
theorem C1_amended (prompt : String) (metadata : WorkflowMeta) (history : List Msg)
    (intro dec bad summ : String) (sub : Json)
    (hmeta : metadata.artifact_creation.truthy = true)
    (hdec : json_loads dec =
      some (.obj [("component_type", .str "Chart"), ("chart_type", sub)]))
    (hsub : sub.truthy = true)
    (hbad : json_loads bad = none) :
    process prompt metadata history ⟨[.ok intro, .ok dec, .ok bad, .ok summ], []⟩ =
      (.ok { has_artifact := true, content := some (pyStrip intro),
             component_type := .str "Chart",
             data := (fallback_artifact (.str "Chart") sub).data,
             summary := some (pyStrip summ) },
       { script := [],
         sent := [intro_prompt prompt metadata.analysis history,
                  component_decision_prompt metadata.analysis metadata.reasoning
                    prompt history,
                  artifact_prompt sub (.str "Chart") prompt
                    (format_conversation_history history),
                  summary_prompt (if history.isEmpty then "" else joinLast5 history)
                    (.str "Chart") sub
                    (fallback_artifact (.str "Chart") sub).data] }) := by
  simp [process, process_dispatch, process_finish, construct_artifact, quickRespond,
        provide_summary, callGpt, getKeyD, lookupKey, pyGet, fallback_artifact,
        hmeta, hdec, hsub, hbad]

/-- C1 (witness): the amended theorem at concrete inputs. -/
theorem C1_witness :
    process "q" artifactMeta []
        ⟨[.ok " Intro ", .ok "\x7b\x22component_type\x22: \x22Chart\x22, \x22chart_type\x22: \x22pie\x22\x7d",
          .ok "\x7bbroken", .ok " Sum "], []⟩ =
      (.ok { has_artifact := true, content := some "Intro",
             component_type := .str "Chart",
             data := (fallback_artifact (.str "Chart") (.str "pie")).data,
             summary := some "Sum" },
       { script := [],
         sent := [intro_prompt "q" (.str "A") [],
                  component_decision_prompt (.str "A") (.str "R") "q" [],
                  artifact_prompt (.str "pie") (.str "Chart") "q"
                    (format_conversation_history []),
                  summary_prompt "" (.str "Chart") (.str "pie")
                    (fallback_artifact (.str "Chart") (.str "pie")).data] }) := by
  have h := C1_amended "q" artifactMeta [] " Intro "
      "\x7b\x22component_type\x22: \x22Chart\x22, \x22chart_type\x22: \x22pie\x22\x7d"
      "\x7bbroken" " Sum " (.str "pie") (by rfl) (by rfl) (by rfl) (by rfl)
  simpa using h

/-! ## C2 — no correction round for chart-without-subtype -/

/-- C2 (counterexample): when the first component-decision round returns
`{"component_type": "Chart"}` with no subtype, no correction prompt is ever
issued: the pipeline makes exactly one further completion call — the
`QuickResponder` prompt — and ends with `has_artifact = false`; there is no
final decision with `component_subtype == "line"`. -/
theorem C2_counterexample :
    process "p" artifactMeta []
        ⟨[.ok "I", .ok "\x7b\x22component_type\x22: \x22Chart\x22\x7d", .ok "Q"], []⟩ =
      (.ok { has_artifact := false, content := some "Q", component_type := .null,
             data := .null, summary := none },
       { script := [],
         sent := [intro_prompt "p" (.str "A") [],
                  component_decision_prompt (.str "A") (.str "R") "p" [],
                  quick_response_prompt (quick_context []) "p"] }) := by
  rfl

/-- C2 (amended): when the first round returns `component_type == "Chart"`
with the subtype missing, the code issues no correction prompt: the only
further completion call is the `QuickResponder` prompt, and the pipeline
returns a plain-text result with `has_artifact = false`. -/
theorem C2_amended (prompt : String) (metadata : WorkflowMeta) (history : List Msg)
    (intro dec q : String)
    (hmeta : metadata.artifact_creation.truthy = true)
    (hdec : json_loads dec = some (.obj [("component_type", .str "Chart")])) :
    process prompt metadata history ⟨[.ok intro, .ok dec, .ok q], []⟩ =
      (.ok { has_artifact := false, content := some (pyStrip q),
             component_type := .null, data := .null, summary := none },
       { script := [],
         sent := [intro_prompt prompt metadata.analysis history,
                  component_decision_prompt metadata.analysis metadata.reasoning
                    prompt history,
                  quick_response_prompt (quick_context history) prompt] }) := by
  simp [process, process_dispatch, quickRespond, callGpt, getKeyD, lookupKey,
        hmeta, hdec, show Json.null.truthy = false from rfl]

/-- C2 (witness): the amended theorem at concrete inputs. -/
theorem C2_witness :
    process "w" artifactMeta []
        ⟨[.ok "In", .ok " \x7b\x22component_type\x22: \x22Chart\x22\x7d ", .ok " T "], []⟩ =
      (.ok { has_artifact := false, content := some "T", component_type := .null,
             data := .null, summary := none },
       { script := [],
         sent := [intro_prompt "w" (.str "A") [],
                  component_decision_prompt (.str "A") (.str "R") "w" [],
                  quick_response_prompt (quick_context []) "w"] }) := by
  have h := C2_amended "w" artifactMeta [] "In"
      " \x7b\x22component_type\x22: \x22Chart\x22\x7d " " T " (by rfl) (by rfl)
  simpa using h

/-! ## C4 — chart subtypes are not checked against the allowed set -/

/-- C4 (counterexample): a first-round decision `Chart`/`"scatter"` — a
subtype outside the allowed set — is passed straight to the artifact
constructor (the construction prompt embeds "scatter") and the produced
chart artifact carries `"type": "scatter"`; no membership check against the
allowed subtype set is performed. -/
theorem C4_counterexample :
    (process "p" artifactMeta []
        ⟨[.ok "I", .ok "\x7b\x22component_type\x22: \x22Chart\x22, \x22chart_type\x22: \x22scatter\x22\x7d",
          .ok "nope", .ok "S"], []⟩ =
      (.ok { has_artifact := true, content := some "I",
             component_type := .str "Chart",
             data := (fallback_artifact (.str "Chart") (.str "scatter")).data,
             summary := some "S" },
       { script := [],
         sent := [intro_prompt "p" (.str "A") [],
                  component_decision_prompt (.str "A") (.str "R") "p" [],
                  artifact_prompt (.str "scatter") (.str "Chart") "p"
                    (format_conversation_history []),
                  summary_prompt "" (.str "Chart") (.str "scatter")
                    (fallback_artifact (.str "Chart") (.str "scatter")).data] })) ∧
    lookupKey [("type", Json.str "scatter")] "type" = some (.str "scatter") ∧
    allowed_chart_subtypes.contains "scatter" = false := by
  exact ⟨rfl, rfl, by decide⟩

/-- C4 (amended): any truthy `chart_type` string returned by the first
round — with no membership check against the allowed subtype set — is passed
through to the artifact constructor, and the constructed chart artifact
carries exactly that string as its subtype; so a successful chart decision
always carries some subtype, but not necessarily one from the allowed set. -/
theorem C4_amended (prompt : String) (metadata : WorkflowMeta) (history : List Msg)
    (intro dec art summ : String) (s : String) (akvs : List (String × Json))
    (hmeta : metadata.artifact_creation.truthy = true)
    (hs : s ≠ "")
    (hdec : json_loads dec =
      some (.obj [("component_type", .str "Chart"), ("chart_type", .str s)]))
    (hart : json_loads art = some (.obj akvs)) :
    ((process prompt metadata history
        ⟨[.ok intro, .ok dec, .ok art, .ok summ], []⟩).1.toOption.map
      (fun r => pyGet r.data "type") = some (.ok (.str s))) ∧
    (process prompt metadata history
        ⟨[.ok intro, .ok dec, .ok art, .ok summ], []⟩).2.sent.get? 2 =
      some (artifact_prompt (.str s) (.str "Chart") prompt
        (format_conversation_history history)) := by
  have hsub : (Json.str s).truthy = true := by
    have hne : ¬ s.isEmpty := fun h => hs ((String.isEmpty_iff s).mp h)
    simp [Json.truthy, hne]
  constructor
  · simp [process, process_dispatch, process_finish, construct_artifact, quickRespond,
          provide_summary, callGpt, getKeyD, lookupKey, pyGet, Except.toOption,
          hmeta, hdec, hsub, hart]
  · simp [process, process_dispatch, process_finish, construct_artifact, quickRespond,
          provide_summary, callGpt, getKeyD, lookupKey, pyGet,
          hmeta, hdec, hsub, hart]

/-- C4 (witness): the amended theorem at concrete inputs with the
out-of-set subtype "scatter". -/
theorem C4_witness :
    ((process "p" artifactMeta []
        ⟨[.ok "I",
          .ok "\x7b\x22component_type\x22: \x22Chart\x22, \x22chart_type\x22: \x22scatter\x22\x7d",
          .ok "\x7b\x22title\x22: \x22T\x22\x7d", .ok "S"], []⟩).1.toOption.map
      (fun r => pyGet r.data "type") = some (.ok (.str "scatter"))) ∧
    (process "p" artifactMeta []
        ⟨[.ok "I",
          .ok "\x7b\x22component_type\x22: \x22Chart\x22, \x22chart_type\x22: \x22scatter\x22\x7d",
          .ok "\x7b\x22title\x22: \x22T\x22\x7d", .ok "S"], []⟩).2.sent.get? 2 =
      some (artifact_prompt (.str "scatter") (.str "Chart") "p"
        (format_conversation_history [])) := by
  exact C4_amended "p" artifactMeta [] "I"
    "\x7b\x22component_type\x22: \x22Chart\x22, \x22chart_type\x22: \x22scatter\x22\x7d"
    "\x7b\x22title\x22: \x22T\x22\x7d" "S" "scatter" [("title", .str "T")]
    (by rfl) (by decide) (by rfl) (by rfl)

/-! ## C9 — decision parse failure silently defaults to Table -/

/-- C9 (confirmed): when the component-decision completion fails to parse as
JSON, `ParentAgent.process` silently defaults `component_type` to `"Table"`
(with `chart_type = None`) and proceeds to construct a Table artifact with
`has_artifact = true` — it neither treats the selection as failed nor
degrades to the text path (the hypotheses only require the remaining
completions to behave sanely: the table payload parses to a dict or fails
to parse, triggering the fallback table). -/
theorem C9_parse_failure_defaults_to_table (prompt : String)
    (metadata : WorkflowMeta) (history : List Msg) (intro dec t summ : String)
    (hmeta : metadata.artifact_creation.truthy = true)
    (hdec : json_loads dec = none)
    (ht : json_loads (cleanFences t) = none ∨
          ∃ kvs, json_loads (cleanFences t) = some (.obj kvs)) :
    (process prompt metadata history
        ⟨[.ok intro, .ok dec, .ok t, .ok summ], []⟩).1.toOption.map
      (fun r => (r.has_artifact, r.component_type, r.content)) =
      some (true, .str "Table", some (pyStrip intro)) := by
  rcases ht with ht | ⟨kvs, ht⟩
  · simp [process, process_dispatch, process_finish, construct_table_artifact,
          generate_fallback_table, quickRespond, provide_summary, callGpt,
          getKeyD, lookupKey, pyGet, hmeta, hdec, ht, Except.toOption]
  · simp [process, process_dispatch, process_finish, construct_table_artifact,
          quickRespond, provide_summary, callGpt,
          getKeyD, lookupKey, pyGet, hmeta, hdec, ht, Except.toOption]

/-- C9 (witness): the theorem at concrete inputs (unparseable decision,
unparseable table payload). -/
theorem C9_witness :
    (process "p" artifactMeta []
        ⟨[.ok "I", .ok "not json", .ok "also not json", .ok "S"], []⟩).1.toOption.map
      (fun r => (r.has_artifact, r.component_type, r.content)) =
      some (true, .str "Table", some "I") := by
  have h := C9_parse_failure_defaults_to_table "p" artifactMeta []
    "I" "not json" "also not json" "S" (by rfl) (by rfl) (Or.inl (by rfl))
  simpa using h

/-! ## C5 — normalization is a restructuring, not a verbatim copy -/

/-- C5 (counterexample): for the conforming chart payload `cexChartPayload`,
the structurer yields `has_artifact = true` but its `data` is NOT the
payload: it is rebuilt as `{labels, values, style}` plus per-type extras,
the payload's nested `data` (with its `metadata`) is dropped, and the
`config` dict is hardcoded rather than copied — refuting "data equals
p.data exactly / fields copied verbatim, no lossy copying". -/
theorem C5_counterexample :
    (structure_response cexChartParent "q" [] ⟨[], []⟩).1.has_artifact = true ∧
    (structure_response cexChartParent "q" [] ⟨[], []⟩).1.data = cexStructuredData ∧
    cexStructuredData ≠ cexChartParent.data ∧
    lookupKey
      [("labels", Json.arr [.str "A", .str "B"]),
       ("values", Json.arr [.num 1, .num 2]),
       ("style", Json.obj [("width", .str "800px"), ("height", .str "500px")]),
       ("title", Json.str "T"),
       ("axis_labels", Json.obj [("x", .str ""), ("y", .str "")]),
       ("config", Json.obj [("show_grid", .bool true), ("show_legend", .bool true),
                            ("interactive", .bool true)])] "data" = none := by
  exact ⟨rfl, rfl, by decide, rfl⟩

/-- C5 (amended): for an artifact result whose payload is a dict and whose
lead-in content is present, the structurer returns `has_artifact = true`
without any completion call, and its rebuilt `data` preserves exactly the
payload's `labels`, extracted `values` and `style` (the remaining payload
fields are not copied; per-type extras are added on top). -/
theorem C5_amended (parent : AgentResponse) (q : String) (history : List Msg)
    (st : GptState) (c : String) (kvs : List (String × Json)) (v : Json)
    (hart : parent.has_artifact = true)
    (hcontent : parent.content = some c) (hc : c.isEmpty = false)
    (hdata : parent.data = .obj kvs)
    (hvals : extract_values kvs = .ok v) :
    structure_response parent q history st =
      ({ content := pyStrip c, has_artifact := true,
         component_type := parent.component_type,
         sub_type :=
           (if parent.component_type = .str "Chart" then
             (lookupKey kvs "type").getD .null
           else .null),
         data := .obj (component_specific_update parent.component_type kvs
           [("labels", getKeyD kvs "labels" (.arr [])),
            ("values", v),
            ("style", getKeyD kvs "style" defaultStyle)]),
         summary := parent.summary }, st) ∧
    lookupKey (component_specific_update parent.component_type kvs
        [("labels", getKeyD kvs "labels" (.arr [])),
         ("values", v),
         ("style", getKeyD kvs "style" defaultStyle)]) "labels" =
      some (getKeyD kvs "labels" (.arr [])) ∧
    lookupKey (component_specific_update parent.component_type kvs
        [("labels", getKeyD kvs "labels" (.arr [])),
         ("values", v),
         ("style", getKeyD kvs "style" defaultStyle)]) "values" = some v ∧
    lookupKey (component_specific_update parent.component_type kvs
        [("labels", getKeyD kvs "labels" (.arr [])),
         ("values", v),
         ("style", getKeyD kvs "style" defaultStyle)]) "style" =
      some (getKeyD kvs "style" defaultStyle) := by
  refine ⟨?_, ?_, ?_, ?_⟩
  · by_cases hct : parent.component_type = .str "Chart" <;>
      simp [structure_response, build_structured, contentFalsy, pyGet,
            hcontent, hc, hart, hdata, hvals, hct, bind, Except.bind,
            pure, Except.pure]
  · rw [lookupKey_component_specific _ _ _ _ (Or.inl rfl)]
    simp [lookupKey]
  · rw [lookupKey_component_specific _ _ _ _ (Or.inr (Or.inl rfl))]
    simp [lookupKey]
  · rw [lookupKey_component_specific _ _ _ _ (Or.inr (Or.inr rfl))]
    simp [lookupKey]

/-- C5 (witness): the amended theorem applied to the concrete chart payload. -/
theorem C5_witness :
    structure_response cexChartParent "q" [] ⟨[], []⟩ =
      ({ content := pyStrip "Here", has_artifact := true,
         component_type := cexChartParent.component_type,
         sub_type :=
           (if cexChartParent.component_type = .str "Chart" then
             (lookupKey
               [("type", Json.str "bar"), ("title", Json.str "T"),
                ("style", Json.obj [("width", .str "800px"), ("height", .str "500px")]),
                ("labels", Json.arr [.str "A", .str "B"]),
                ("data", Json.obj [("values", .arr [.num 1, .num 2]),
                                   ("metadata", .obj [("description", .str "D")])])]
               "type").getD .null
           else .null),
         data := .obj (component_specific_update cexChartParent.component_type
           [("type", Json.str "bar"), ("title", Json.str "T"),
            ("style", Json.obj [("width", .str "800px"), ("height", .str "500px")]),
            ("labels", Json.arr [.str "A", .str "B"]),
            ("data", Json.obj [("values", .arr [.num 1, .num 2]),
                               ("metadata", .obj [("description", .str "D")])])]
           [("labels", getKeyD
              [("type", Json.str "bar"), ("title", Json.str "T"),
               ("style", Json.obj [("width", .str "800px"), ("height", .str "500px")]),
               ("labels", Json.arr [.str "A", .str "B"]),
               ("data", Json.obj [("values", .arr [.num 1, .num 2]),
                                  ("metadata", .obj [("description", .str "D")])])]
              "labels" (.arr [])),
            ("values", Json.arr [.num 1, .num 2]),
            ("style", getKeyD
              [("type", Json.str "bar"), ("title", Json.str "T"),
               ("style", Json.obj [("width", .str "800px"), ("height", .str "500px")]),
               ("labels", Json.arr [.str "A", .str "B"]),
               ("data", Json.obj [("values", .arr [.num 1, .num 2]),
                                  ("metadata", .obj [("description", .str "D")])])]
              "style" defaultStyle)]),
         summary := cexChartParent.summary }, ⟨[], []⟩) := by
  exact (C5_amended cexChartParent "q" [] ⟨[], []⟩ "Here"
    [("type", Json.str "bar"), ("title", Json.str "T"),
     ("style", Json.obj [("width", .str "800px"), ("height", .str "500px")]),
     ("labels", Json.arr [.str "A", .str "B"]),
     ("data", Json.obj [("values", .arr [.num 1, .num 2]),
                        ("metadata", .obj [("description", .str "D")])])]
    (Json.arr [.num 1, .num 2]) rfl rfl rfl rfl (by rfl)).1

/-! ## C10 — only the last five messages influence the prompts -/

/-- C10: for any two conversation histories agreeing on their last five
messages, `QuickResponder.respond`, `ArtifactConstructor.construct_artifact`
and `ArtifactSummaryProvider.provide_summary` behave identically — in
particular they build identical prompt text for the completion client;
earlier messages never influence the prompts sent. -/
theorem C10_last_five (h₁ h₂ : List Msg) (h : lastN 5 h₁ = lastN 5 h₂)
    (prompt : String) (ct cht ad : Json) (st : GptState) :
    quickRespond prompt h₁ st = quickRespond prompt h₂ st ∧
    construct_artifact ct cht prompt h₁ st = construct_artifact ct cht prompt h₂ st ∧
    provide_summary ct cht ad h₁ st = provide_summary ct cht ad h₂ st := by
  refine ⟨?_, ?_, ?_⟩
  · unfold quickRespond
    rw [quick_context_congr h]
  · unfold construct_artifact
    rw [format_conversation_history_congr h]
  · unfold provide_summary
    rw [isEmpty_eq_of_lastN_eq h, joinLast5_congr h]

/-- C10 (witness): the theorem applied to a six-message history and its
five-message suffix. -/
theorem C10_witness :
    quickRespond "p"
        [⟨some "user", some "m0"⟩, ⟨some "assistant", some "m1"⟩,
         ⟨some "user", some "m2"⟩, ⟨some "assistant", some "m3"⟩,
         ⟨some "user", some "m4"⟩, ⟨some "assistant", some "m5"⟩]
        ⟨[.ok "r"], []⟩ =
      quickRespond "p"
        [⟨some "assistant", some "m1"⟩, ⟨some "user", some "m2"⟩,
         ⟨some "assistant", some "m3"⟩, ⟨some "user", some "m4"⟩,
         ⟨some "assistant", some "m5"⟩]
        ⟨[.ok "r"], []⟩ := by
  exact (C10_last_five _ _ (by rfl) "p" .null .null .null ⟨[.ok "r"], []⟩).1

end ChatPipeline
